import Mathlib

/-!
Verification of `neurokit2/eog/eog_clean.py`.

The file is a shallow embedding of the EOG-cleaning dispatcher: signals are
lists of rationals, the two collaborator filter routines (`signal_filter`
and `mne.filter.filter_data`) are supplied through an explicit environment,
and every call the dispatcher makes to a collaborator is recorded in a
trace, so that "invokes the filter exactly once with these arguments"
becomes a statement about that trace.
-/

namespace EogClean

/-- Arguments of one call to the `signal_filter` collaborator, mirroring the
keyword arguments `eog_clean.py` passes to it. -/
structure SignalFilterArgs where
  signal : List ℚ
  sampling_rate : ℚ
  method : String
  order : ℕ
  lowcut : Option ℚ
  highcut : Option ℚ
deriving DecidableEq, Repr

/-- Arguments of one call to the external `mne.filter.filter_data` routine,
mirroring the keyword arguments `_eog_clean_mne` passes to it. -/
structure MneFilterArgs where
  signal : List ℚ
  sfreq : ℚ
  l_freq : Option ℚ
  h_freq : Option ℚ
  filter_length : String
  l_trans_bandwidth : ℚ
  h_trans_bandwidth : ℚ
  phase : String
  fir_window : String
  fir_design : String
  verbose : Bool
deriving DecidableEq, Repr

/-- Python exceptions raised on the paths of `eog_clean.py`.
`valueError` is the spec's `InvalidArgument` kind; `importError` is the
spec's `DependencyMissing` kind and keeps its two constructor arguments
separate, as in the source, where `ImportError` is raised with two
comma-separated string arguments; `conversionError` stands for a failure
raised inside `as_vector` on a non-convertible input. -/
inductive NKError where
  | valueError (msg : String)
  | importError (arg1 : String) (arg2 : String)
  | conversionError (msg : String)
deriving DecidableEq, Repr

/-- A call the dispatcher made to one of its collaborators. -/
inductive CollabCall where
  | signalFilter (args : SignalFilterArgs)
  | mneFilterData (args : MneFilterArgs)
deriving DecidableEq, Repr

/-- The environment supplying the two collaborator routines and whether the
optional `mne` package is importable. -/
structure Env where
  signal_filter : SignalFilterArgs → List ℚ
  mne_available : Bool
  mne_filter_data : MneFilterArgs → List ℚ

/-- An argument of `eog_clean`: either a container convertible to a
one-dimensional numeric vector, or one that is not. -/
inductive PyInput where
  | vec (xs : List ℚ)
  | nonVector (desc : String)
deriving DecidableEq, Repr

/-- Modelled from the spec: `as_vector` (imported from `..misc`, not under
`src/`) converts "any one-dimensional sequence-like container convertible
to a dense numeric vector" and fails on any other input. -/
def as_vector : PyInput → Except NKError (List ℚ)
  | .vec xs => .ok xs
  | .nonVector desc => .error (.conversionError desc)

/-- ASCII lowering of one character, as Python's `str.lower` does on the
ASCII method selectors used here. -/
def lowerChar (c : Char) : Char :=
  if 65 ≤ c.toNat ∧ c.toNat ≤ 90 then Char.ofNat (c.toNat + 32) else c

/-- Lowering of `method.lower()` in the source: character-wise ASCII lowering. -/
def pyLower (s : String) : String :=
  ⟨s.data.map lowerChar⟩

/-- The message of the `ValueError` raised on an unrecognized method; the
source builds it from two adjacent string literals, which Python
concatenates into this single message. -/
def unrecognizedMethodMsg : String :=
  "NeuroKit error: eog_clean(): \x27method\x27 should be " ++
    "one of \x27agarwal2019\x27, \x27mne\x27."

/-- First argument of the `ImportError` raised when `import mne` fails. -/
def mneImportErrorArg1 : String :=
  "NeuroKit error: signal_filter(): the \x27mne\x27 module is required for this method to run. "

/-- Second argument of the `ImportError` raised when `import mne` fails. -/
def mneImportErrorArg2 : String :=
  "Please install it first (`pip install mne`)."

/-- The function `_eog_clean_agarwal2019`: one `signal_filter` call, Butterworth of
order 4, no low cutoff, high cutoff 10 Hz. -/
def _eog_clean_agarwal2019 (env : Env) (eog_signal : List ℚ)
    (sampling_rate : ℚ := 1000) : Except NKError (List ℚ) × List CollabCall :=
  let args : SignalFilterArgs :=
    { signal := eog_signal, sampling_rate := sampling_rate,
      method := "butterworth", order := 4, lowcut := none, highcut := some 10 }
  (.ok (env.signal_filter args), [.signalFilter args])

/-- The function `_eog_clean_brainstorm`: one `signal_filter` call, Butterworth of
order 4, band-pass 1.5 to 15 Hz. Defined in the source but never called. -/
def _eog_clean_brainstorm (env : Env) (eog_signal : List ℚ)
    (sampling_rate : ℚ := 1000) : Except NKError (List ℚ) × List CollabCall :=
  let args : SignalFilterArgs :=
    { signal := eog_signal, sampling_rate := sampling_rate,
      method := "butterworth", order := 4, lowcut := some (3/2), highcut := some 15 }
  (.ok (env.signal_filter args), [.signalFilter args])

/-- The function `_eog_clean_mne`: checks that `mne` is importable, then makes one
`mne.filter.filter_data` call with band-pass 1 to 10 Hz, a 10-second filter
length, 0.5 Hz transition bandwidths, zero-double phase, Hann window and
firwin2 design. -/
def _eog_clean_mne (env : Env) (eog_signal : List ℚ)
    (sampling_rate : ℚ := 1000) : Except NKError (List ℚ) × List CollabCall :=
  if env.mne_available then
    let args : MneFilterArgs :=
      { signal := eog_signal, sfreq := sampling_rate,
        l_freq := some 1, h_freq := some 10, filter_length := "10s",
        l_trans_bandwidth := 1/2, h_trans_bandwidth := 1/2,
        phase := "zero-double", fir_window := "hann",
        fir_design := "firwin2", verbose := false }
    (.ok (env.mne_filter_data args), [.mneFilterData args])
  else
    (.error (.importError mneImportErrorArg1 mneImportErrorArg2), [])

/-- The function `eog_clean`: sanitize the input through `as_vector`, lower the method
string, dispatch to a preset, or raise a `ValueError` on an unrecognized
method. -/
def eog_clean (env : Env) (eog_signal : PyInput) (sampling_rate : ℚ := 1000)
    (method : String := "agarwal2019") : Except NKError (List ℚ) × List CollabCall :=
  match as_vector eog_signal with
  | .error e => (.error e, [])
  | .ok signal =>
    let m := pyLower method
    if m ∈ ["agarwal", "agarwal2019"] then
      _eog_clean_agarwal2019 env signal sampling_rate
    else if m ∈ ["mne"] then
      _eog_clean_mne env signal sampling_rate
    else
      (.error (.valueError unrecognizedMethodMsg), [])

/-- A concrete environment whose collaborators return the input signal
unchanged and in which the `mne` package is importable. -/
def envId : Env :=
  { signal_filter := fun a => a.signal, mne_available := true,
    mne_filter_data := fun a => a.signal }

/-- A concrete environment in which the `mne` package is not importable. -/
def envNoMne : Env :=
  { signal_filter := fun a => a.signal, mne_available := false,
    mne_filter_data := fun a => a.signal }

theorem lowerChar_toNat_of_upper (c : Char) (h : 65 ≤ c.toNat ∧ c.toNat ≤ 90) :
    (lowerChar c).toNat = c.toNat + 32 := by
  unfold lowerChar
  rw [if_pos h]
  have hv : Nat.isValidChar (c.toNat + 32) := Or.inl (by omega)
  simp [Char.ofNat, hv, Char.ofNatAux]
  rfl

theorem lowerChar_idem (c : Char) : lowerChar (lowerChar c) = lowerChar c := by
  by_cases h : 65 ≤ c.toNat ∧ c.toNat ≤ 90
  · have ht := lowerChar_toNat_of_upper c h
    conv_lhs => rw [lowerChar]
    rw [if_neg (by omega)]
  · unfold lowerChar
    rw [if_neg h, if_neg h]

theorem pyLower_idem (s : String) : pyLower (pyLower s) = pyLower s := by
  have hfe : lowerChar ∘ lowerChar = lowerChar := funext lowerChar_idem
  simp only [pyLower, List.map_map, hfe]

/-- C2: for every environment, signal and sampling rate, selecting the
agarwal2019 preset (method lowering to "agarwal2019" or "agarwal") makes
exactly one `signal_filter` call, with filter family "butterworth", order
4, no low cutoff and high cutoff 10 Hz, and returns that call's result
unchanged. -/
theorem agarwal_single_butterworth_call (env : Env) (s : PyInput) (r : ℚ)
    (m : String) (v : List ℚ) (hv : as_vector s = .ok v)
    (hm : pyLower m ∈ ["agarwal", "agarwal2019"]) :
    eog_clean env s r m =
      (.ok (env.signal_filter
          { signal := v, sampling_rate := r, method := "butterworth",
            order := 4, lowcut := none, highcut := some 10 }),
        [.signalFilter
          { signal := v, sampling_rate := r, method := "butterworth",
            order := 4, lowcut := none, highcut := some 10 }]) := by
  simp [eog_clean, hv, hm, _eog_clean_agarwal2019]

theorem agarwal_single_butterworth_call_witness :
    eog_clean envId (.vec [1, 2, 3]) 100 "AgArWaL2019" =
      (.ok (envId.signal_filter
          { signal := [1, 2, 3], sampling_rate := 100, method := "butterworth",
            order := 4, lowcut := none, highcut := some 10 }),
        [.signalFilter
          { signal := [1, 2, 3], sampling_rate := 100, method := "butterworth",
            order := 4, lowcut := none, highcut := some 10 }]) :=
  agarwal_single_butterworth_call envId (.vec [1, 2, 3]) 100 "AgArWaL2019"
    [1, 2, 3] rfl (by decide)

/-- C5: method selection is case-insensitive: `eog_clean env s r m` equals
`eog_clean env s r (pyLower m)` for every method string, and in particular
"AGARWAL2019" and "agarwal2019" produce identical results. -/
theorem method_case_insensitive (env : Env) (s : PyInput) (r : ℚ) (m : String) :
    eog_clean env s r m = eog_clean env s r (pyLower m) ∧
    eog_clean env s r "AGARWAL2019" = eog_clean env s r "agarwal2019" := by
  constructor
  · unfold eog_clean
    rw [pyLower_idem]
  · rfl

/-- C3: for every environment in which the `mne` package is importable,
selecting the "mne" preset makes exactly one `mne.filter.filter_data` call,
with low cutoff 1 Hz, high cutoff 10 Hz, filter length "10s", transition
bandwidths 0.5 Hz on each edge, phase "zero-double", Hann window and
firwin2 design, and returns that call's result unchanged. -/
theorem mne_single_fir_call (env : Env) (s : PyInput) (r : ℚ) (m : String)
    (v : List ℚ) (hv : as_vector s = .ok v) (hm : pyLower m = "mne")
    (havail : env.mne_available = true) :
    eog_clean env s r m =
      (.ok (env.mne_filter_data
          { signal := v, sfreq := r, l_freq := some 1, h_freq := some 10,
            filter_length := "10s", l_trans_bandwidth := 1/2,
            h_trans_bandwidth := 1/2, phase := "zero-double",
            fir_window := "hann", fir_design := "firwin2", verbose := false }),
        [.mneFilterData
          { signal := v, sfreq := r, l_freq := some 1, h_freq := some 10,
            filter_length := "10s", l_trans_bandwidth := 1/2,
            h_trans_bandwidth := 1/2, phase := "zero-double",
            fir_window := "hann", fir_design := "firwin2", verbose := false }]) := by
  have hne : pyLower m ∉ ["agarwal", "agarwal2019"] := by
    rw [hm]; decide
  simp [eog_clean, hv, hne, hm, _eog_clean_mne, havail]

theorem mne_single_fir_call_witness :
    eog_clean envId (.vec [1, 2]) 250 "MNE" =
      (.ok (envId.mne_filter_data
          { signal := [1, 2], sfreq := 250, l_freq := some 1, h_freq := some 10,
            filter_length := "10s", l_trans_bandwidth := 1/2,
            h_trans_bandwidth := 1/2, phase := "zero-double",
            fir_window := "hann", fir_design := "firwin2", verbose := false }),
        [.mneFilterData
          { signal := [1, 2], sfreq := 250, l_freq := some 1, h_freq := some 10,
            filter_length := "10s", l_trans_bandwidth := 1/2,
            h_trans_bandwidth := 1/2, phase := "zero-double",
            fir_window := "hann", fir_design := "firwin2", verbose := false }]) :=
  mne_single_fir_call envId (.vec [1, 2]) 250 "MNE" [1, 2] rfl (by decide) rfl

/-- C4: `eog_clean` fails with the DependencyMissing-kind error
(`ImportError`) exactly when the "mne" preset is selected and the `mne`
package is not importable; the error text names the missing package and
instructs to install it; and for any other method selection the result does
not depend on whether `mne` is importable (the availability check only
happens on the "mne" path). -/
theorem mne_dependency_check (env : Env) (s : PyInput) (r : ℚ) (m : String)
    (v : List ℚ) (hv : as_vector s = .ok v) :
    ((∃ a1 a2, (eog_clean env s r m).1 = .error (.importError a1 a2)) ↔
        (pyLower m = "mne" ∧ env.mne_available = false))
    ∧ (pyLower m = "mne" → env.mne_available = false →
        (eog_clean env s r m).1 =
          .error (.importError mneImportErrorArg1 mneImportErrorArg2))
    ∧ (pyLower m ≠ "mne" → ∀ b : Bool,
        eog_clean { env with mne_available := b } s r m = eog_clean env s r m)
    ∧ ("mne".data <:+: mneImportErrorArg1.data)
    ∧ ("install".data <:+: mneImportErrorArg2.data) := by
  refine ⟨⟨?_, ?_⟩, ?_, ?_, ?_, ?_⟩
  · rintro ⟨a1, a2, ha⟩
    by_cases h1 : pyLower m ∈ ["agarwal", "agarwal2019"]
    · simp [eog_clean, hv, h1, _eog_clean_agarwal2019] at ha
    · by_cases h2 : pyLower m = "mne"
      · cases hav : env.mne_available
        · exact ⟨h2, rfl⟩
        · simp [eog_clean, hv, h1, h2, _eog_clean_mne, hav] at ha
      · simp [eog_clean, hv, h1, h2] at ha
  · rintro ⟨h2, hav⟩
    have h1 : pyLower m ∉ ["agarwal", "agarwal2019"] := by rw [h2]; decide
    refine ⟨mneImportErrorArg1, mneImportErrorArg2, ?_⟩
    simp [eog_clean, hv, h1, h2, _eog_clean_mne, hav]
  · intro h2 hav
    have h1 : pyLower m ∉ ["agarwal", "agarwal2019"] := by rw [h2]; decide
    simp [eog_clean, hv, h1, h2, _eog_clean_mne, hav]
  · intro h2 b
    by_cases h1 : pyLower m ∈ ["agarwal", "agarwal2019"]
    · simp [eog_clean, hv, h1, _eog_clean_agarwal2019]
    · simp [eog_clean, hv, h1, h2]
  · decide
  · decide

theorem mne_dependency_check_witness :
    ((∃ a1 a2, (eog_clean envNoMne (.vec [0]) 250 "mne").1 =
        .error (.importError a1 a2)) ↔
      (pyLower "mne" = "mne" ∧ envNoMne.mne_available = false))
    ∧ (pyLower "mne" = "mne" → envNoMne.mne_available = false →
        (eog_clean envNoMne (.vec [0]) 250 "mne").1 =
          .error (.importError mneImportErrorArg1 mneImportErrorArg2))
    ∧ (pyLower "mne" ≠ "mne" → ∀ b : Bool,
        eog_clean { envNoMne with mne_available := b } (.vec [0]) 250 "mne" =
          eog_clean envNoMne (.vec [0]) 250 "mne")
    ∧ ("mne".data <:+: mneImportErrorArg1.data)
    ∧ ("install".data <:+: mneImportErrorArg2.data) :=
  mne_dependency_check envNoMne (.vec [0]) 250 "mne" [0] rfl

set_option maxRecDepth 10000 in
/-- C10: when the `mne` package is absent, the "mne" path raises an
`ImportError` built from two separate string arguments (a pair, not a
single message); the first argument attributes the failure to
"signal_filter()", the text never mentions "eog_clean", and it names the
mne module and the command `pip install mne`. -/
theorem mne_import_error_two_args (env : Env) (s : PyInput) (r : ℚ)
    (v : List ℚ) (hv : as_vector s = .ok v) (hna : env.mne_available = false) :
    (eog_clean env s r "mne").1 =
      .error (.importError mneImportErrorArg1 mneImportErrorArg2)
    ∧ mneImportErrorArg1 ≠ mneImportErrorArg2
    ∧ ("signal_filter()".data <:+: mneImportErrorArg1.data)
    ∧ ¬ ("eog_clean".data <:+: (mneImportErrorArg1 ++ mneImportErrorArg2).data)
    ∧ ("\x27mne\x27".data <:+: mneImportErrorArg1.data)
    ∧ ("pip install mne".data <:+: mneImportErrorArg2.data) := by
  refine ⟨?_, by decide, by decide, by decide, by decide, by decide⟩
  simp [eog_clean, hv, _eog_clean_mne, hna, pyLower, lowerChar]

theorem mne_import_error_two_args_witness :
    (eog_clean envNoMne (.vec [1]) 100 "mne").1 =
      .error (.importError mneImportErrorArg1 mneImportErrorArg2)
    ∧ mneImportErrorArg1 ≠ mneImportErrorArg2
    ∧ ("signal_filter()".data <:+: mneImportErrorArg1.data)
    ∧ ¬ ("eog_clean".data <:+: (mneImportErrorArg1 ++ mneImportErrorArg2).data)
    ∧ ("\x27mne\x27".data <:+: mneImportErrorArg1.data)
    ∧ ("pip install mne".data <:+: mneImportErrorArg2.data) :=
  mne_import_error_two_args envNoMne (.vec [1]) 100 [1] rfl rfl

set_option maxRecDepth 10000 in
/-- C1: given a convertible signal, `eog_clean` fails with the
InvalidArgument-kind error (`ValueError`), whose message enumerates the
valid options "agarwal2019" and "mne", and makes no collaborator call, if
and only if the lowered method string is outside the recognized set
\x7b"agarwal", "agarwal2019", "mne"\x7d. -/
theorem unrecognized_method_iff (env : Env) (s : PyInput) (r : ℚ) (m : String)
    (h : ∃ v, as_vector s = .ok v) :
    (∃ msg, (eog_clean env s r m).1 = .error (.valueError msg) ∧
        ("agarwal2019".data <:+: msg.data) ∧ ("mne".data <:+: msg.data) ∧
        (eog_clean env s r m).2 = [])
      ↔ pyLower m ∉ ["agarwal", "agarwal2019", "mne"] := by
  obtain ⟨v, hv⟩ := h
  by_cases h1 : pyLower m ∈ ["agarwal", "agarwal2019"]
  · constructor
    · rintro ⟨msg, hmsg, -⟩
      simp [eog_clean, hv, h1, _eog_clean_agarwal2019] at hmsg
    · intro hnot
      apply absurd ?_ hnot
      simp only [List.mem_cons, List.not_mem_nil, or_false] at h1 ⊢
      tauto
  · by_cases h2 : pyLower m = "mne"
    · constructor
      · rintro ⟨msg, hmsg, -⟩
        cases hav : env.mne_available <;>
          simp [eog_clean, hv, h1, h2, _eog_clean_mne, hav] at hmsg
      · intro hnot
        exact absurd (by simp [h2]) hnot
    · have hr : pyLower m ∉ ["agarwal", "agarwal2019", "mne"] := by
        simp only [List.mem_cons, List.not_mem_nil, or_false] at h1 ⊢
        tauto
      refine iff_of_true ⟨unrecognizedMethodMsg, ?_, by decide, by decide, ?_⟩ hr
      · simp [eog_clean, hv, h1, h2]
      · simp [eog_clean, hv, h1, h2]

theorem unrecognized_method_iff_witness :
    (∃ msg, (eog_clean envId (.vec [1, 2]) 100 "foo").1 =
        .error (.valueError msg) ∧
        ("agarwal2019".data <:+: msg.data) ∧ ("mne".data <:+: msg.data) ∧
        (eog_clean envId (.vec [1, 2]) 100 "foo").2 = [])
      ↔ pyLower "foo" ∉ ["agarwal", "agarwal2019", "mne"] :=
  unrecognized_method_iff envId (.vec [1, 2]) 100 "foo" ⟨[1, 2], rfl⟩

/-- C6: for a convertible signal and a recognized method (with the `mne`
package importable when the "mne" preset is selected), `eog_clean` returns
a vector whose length equals the converted input's length, under the
collaborator contract that both filter routines preserve length. -/
theorem recognized_method_length (env : Env) (s : PyInput) (r : ℚ) (m : String)
    (v : List ℚ) (hv : as_vector s = .ok v)
    (hsf : ∀ args, (env.signal_filter args).length = args.signal.length)
    (hmf : ∀ args, (env.mne_filter_data args).length = args.signal.length)
    (hm : pyLower m ∈ ["agarwal", "agarwal2019", "mne"])
    (havail : pyLower m = "mne" → env.mne_available = true) :
    ∃ out, (eog_clean env s r m).1 = .ok out ∧ out.length = v.length := by
  by_cases h1 : pyLower m ∈ ["agarwal", "agarwal2019"]
  · refine ⟨env.signal_filter
        { signal := v, sampling_rate := r, method := "butterworth",
          order := 4, lowcut := none, highcut := some 10 }, ?_, hsf _⟩
    simp [eog_clean, hv, h1, _eog_clean_agarwal2019]
  · have h2 : pyLower m = "mne" := by
      simp only [List.mem_cons, List.not_mem_nil, or_false] at hm h1
      tauto
    have hav := havail h2
    refine ⟨env.mne_filter_data
        { signal := v, sfreq := r, l_freq := some 1, h_freq := some 10,
          filter_length := "10s", l_trans_bandwidth := 1/2,
          h_trans_bandwidth := 1/2, phase := "zero-double",
          fir_window := "hann", fir_design := "firwin2",
          verbose := false }, ?_, hmf _⟩
    simp [eog_clean, hv, h1, h2, _eog_clean_mne, hav]

theorem recognized_method_length_witness :
    ∃ out, (eog_clean envId (.vec [5, 6, 7]) 100 "agarwal").1 = .ok out ∧
      out.length = ([5, 6, 7] : List ℚ).length :=
  recognized_method_length envId (.vec [5, 6, 7]) 100 "agarwal" [5, 6, 7] rfl
    (fun _ => rfl) (fun _ => rfl) (by decide) (by decide)

/-- C7: the brainstorm preset is dead code: no collaborator call ever made
by `eog_clean`, for any method string and any input, is a call that
`_eog_clean_brainstorm` would make. -/
theorem brainstorm_never_called (env env2 : Env) (s : PyInput) (r r2 : ℚ)
    (m : String) (v2 : List ℚ) (c : CollabCall)
    (hc : c ∈ (eog_clean env s r m).2) :
    c ∉ (_eog_clean_brainstorm env2 v2 r2).2 := by
  intro hb
  simp only [_eog_clean_brainstorm, List.mem_singleton] at hb
  subst hb
  cases hsv : as_vector s with
  | error e => simp [eog_clean, hsv] at hc
  | ok v =>
    by_cases h1 : pyLower m ∈ ["agarwal", "agarwal2019"]
    · simp [eog_clean, hsv, h1, _eog_clean_agarwal2019] at hc
    · by_cases h2 : pyLower m = "mne"
      · cases hav : env.mne_available <;>
          simp [eog_clean, hsv, h1, h2, _eog_clean_mne, hav] at hc
      · simp [eog_clean, hsv, h1, h2] at hc

theorem brainstorm_never_called_witness :
    CollabCall.signalFilter
        { signal := [1], sampling_rate := 100, method := "butterworth",
          order := 4, lowcut := none, highcut := some 10 } ∉
      (_eog_clean_brainstorm envId [1] 100).2 :=
  brainstorm_never_called envId envId (.vec [1]) 100 100 "agarwal2019" [1]
    _ (by decide)

/-- C8: applying the agarwal2019 preset to the all-zero signal of length N
returns the all-zero signal of length N, assuming the `signal_filter`
collaborator maps any all-zero signal to the all-zero signal of the same
length. -/
theorem agarwal_zero_signal (env : Env) (r : ℚ) (N : ℕ)
    (hzero : ∀ args : SignalFilterArgs, (∀ x ∈ args.signal, x = 0) →
        env.signal_filter args = List.replicate args.signal.length (0 : ℚ)) :
    (eog_clean env (.vec (List.replicate N (0 : ℚ))) r "agarwal2019").1 =
      .ok (List.replicate N (0 : ℚ)) := by
  have h1 : pyLower "agarwal2019" ∈ ["agarwal", "agarwal2019"] := by decide
  have hz := hzero
      { signal := List.replicate N (0 : ℚ), sampling_rate := r,
        method := "butterworth", order := 4, lowcut := none, highcut := some 10 }
      (fun x hx => List.eq_of_mem_replicate hx)
  simp only [List.length_replicate] at hz
  simp [eog_clean, as_vector, h1, _eog_clean_agarwal2019, hz]

theorem agarwal_zero_signal_witness :
    (eog_clean envId (.vec (List.replicate 4 (0 : ℚ))) 100 "agarwal2019").1 =
      .ok (List.replicate 4 (0 : ℚ)) :=
  agarwal_zero_signal envId 100 4 (fun _ h => List.eq_replicate_of_mem h)

/-- C9: input sanitization precedes method validation: a non-convertible
signal makes `eog_clean` fail with the `as_vector` failure for every method
string, recognized or not, and the unrecognized-method `ValueError` is only
ever raised when `as_vector` succeeded on the signal. -/
theorem as_vector_before_method_check (env : Env) (s : PyInput) (r : ℚ)
    (m : String) :
    (∀ d, s = .nonVector d →
        eog_clean env s r m = (.error (.conversionError d), []))
    ∧ (∀ msg, (eog_clean env s r m).1 = .error (.valueError msg) →
        ∃ v, as_vector s = .ok v) := by
  constructor
  · rintro d rfl
    rfl
  · intro msg hmsg
    cases s with
    | vec xs => exact ⟨xs, rfl⟩
    | nonVector d => simp [eog_clean, as_vector] at hmsg

theorem as_vector_before_method_check_witness :
    eog_clean envId (.nonVector "dataframe") 100 "unknownmethod" =
      (.error (.conversionError "dataframe"), []) :=
  (as_vector_before_method_check envId (.nonVector "dataframe") 100
    "unknownmethod").1 "dataframe" rfl

end EogClean
